import Mathlib

set_option maxRecDepth 100000
set_option maxHeartbeats 2000000

/-! Verification development for the Smart Redirect Processor
(src/smart_redirect_processor.py), a Burp extension whose
`processHttpMessage` repairs 3xx responses that carry an oversized,
possibly GZIP-compressed body.  The embedding below covers the response
path of `processHttpMessage` (`messageIsRequest` false, proxy tool):
candidate classification, status-line rewrite, "Object moved" stub
removal, conditional GZIP decompression, Content-Encoding header removal
and the side effects (`setHighlight`/`setComment`/`issueAlert`; the served
message itself is the `Outcome`).  `print` diagnostics go to stdout only
and carry no decision-relevant state, so they are not modelled.  Bodies
are byte lists (`List Nat`), header lines are strings, exactly as the
source manipulates them. -/

/-- Python `str.lower()` restricted to the ASCII case map, as applied to
header lines by the source. -/
def pyLower (s : String) : String := String.mk (s.data.map Char.toLower)

/-- Python `str.startswith(pre)`. -/
def pyStartsWith (s pre : String) : Bool := pre.data.isPrefixOf s.data

/-- Scans for `pat` as a contiguous sublist of a character list. -/
def charsContain (pat : List Char) : List Char → Bool
  | [] => pat.isEmpty
  | c :: cs => pat.isPrefixOf (c :: cs) || charsContain pat cs

/-- Python `sub in s` (contiguous substring containment). -/
def pyContains (s sub : String) : Bool := charsContain sub.data s.data

/-- Header-name key tested by the source's `content-type` check (line 78). -/
def contentTypeKey : String := "content-type:"

/-- Header-name key tested by the source's `content-encoding` filter (line 99). -/
def contentEncodingKey : String := "content-encoding:"

/-- Content-type value fragment tested by the source (line 78). -/
def jsSignal : String := "application/x-javascript"

/-- Source line 78: `header.lower().startswith("content-type:") and
"application/x-javascript" in header.lower()`. -/
def isJsHeader (h : String) : Bool :=
  pyStartsWith (pyLower h) contentTypeKey && pyContains (pyLower h) jsSignal

/-- Source line 99: `h.lower().startswith("content-encoding:")`. -/
def isContentEncodingHeader (h : String) : Bool :=
  pyStartsWith (pyLower h) contentEncodingKey

/-- Splits a character list at the first space character, if any:
the pieces before and after that space. -/
def splitFirstSpace : List Char → Option (List Char × List Char)
  | [] => none
  | c :: cs =>
    if c = ' ' then some ([], cs)
    else (splitFirstSpace cs).map (fun p => (c :: p.1, p.2))

/-- Python `status_line.split(' ', 2)` (source line 56): split on the
single space character, at most two splits, empty fields preserved. -/
def pySplitSpace2 (s : String) : List String :=
  match splitFirstSpace s.data with
  | none => [s]
  | some (a, r1) =>
    match splitFirstSpace r1 with
    | none => [String.mk a, String.mk r1]
    | some (b, r2) => [String.mk a, String.mk b, String.mk r2]

/-- The digit the candidate check compares the status field against. -/
def threeStr : String := "3"

/-- Source line 59, status-line half of the candidate condition:
`len(parts) > 1 and parts[1].startswith('3')`. -/
def isCandidateStatus (statusLine : String) : Bool :=
  match pySplitSpace2 statusLine with
  | _ :: p1 :: _ => pyStartsWith p1 threeStr
  | _ => false

/-- Replacement text of the status rewrite (source line 65). -/
def okStatusRepl : List Char := (" 200 OK").data

/-- One attempt of the regex ` 3\d{2} .+` (source line 65) at the head of
the character list: a space, the digit 3, two digits, a space, then one
or more characters other than a newline, matched greedily.  On success it
returns what remains after the greedy `.+` (the suffix starting at the
first newline, or nothing). -/
def statusMatchAt : List Char → Option (List Char)
  | ' ' :: '3' :: d1 :: d2 :: ' ' :: c :: rest =>
    if d1.isDigit && d2.isDigit && c != '\n' then
      some ((c :: rest).dropWhile (fun x => x != '\n'))
    else none
  | _ => none

/-- Python `re.sub(r' 3\d{2} .+', ' 200 OK', status_line, 1)` scanning:
try the pattern at each position left to right and replace the first
(leftmost) match only. -/
def statusSubAux : List Char → List Char
  | [] => []
  | c :: cs =>
    match statusMatchAt (c :: cs) with
    | some rest => okStatusRepl ++ rest
    | none => c :: statusSubAux cs

/-- Source line 65: the status-line rewrite
`re.sub(r' 3\d{2} .+', ' 200 OK', status_line, 1)`. -/
def statusRewrite (s : String) : String := String.mk (statusSubAux s.data)

/-- ASCII bytes of a string, used for the byte-level patterns. -/
def strBytes (s : String) : List Nat := s.data.map Char.toNat

/-- Opening literal of the "Object moved" regex (source line 70). -/
def stubOpen : List Nat :=
  strBytes ("<html><head><title>Object moved</title></head><body>")

/-- Closing literal of the "Object moved" regex (source line 70). -/
def stubClose : List Nat := strBytes ("</body></html>")

/-- The two-byte GZIP magic number `b'\x1f\x8b'` (source line 83). -/
def gzipMagic : List Nat := [31, 139]

/-- Python `bytes.find(pat)` (source line 85): index of the first
occurrence of `pat` as a contiguous sublist, scanning left to right;
`none` models the return value -1. -/
def findSub (pat : List Nat) : List Nat → Option Nat
  | [] => if pat.isEmpty then some 0 else none
  | b :: bs =>
    if pat.isPrefixOf (b :: bs) then some 0
    else (findSub pat bs).map (fun i => i + 1)

/-- Source lines 70-72: remove the first match of the regex
`(?s)<html><head><title>Object moved</title></head><body>.*?</body></html>`
from the body.  Leftmost-shortest regex semantics: the match, when one
exists, starts at the first occurrence of the opening literal that has an
occurrence of the closing literal at or after its end, and the non-greedy
interior makes it end at the first such closing occurrence.  Since any
closing occurrence serving a later opening occurrence also serves the
first one, the match starts exactly at the first occurrence of `stubOpen`,
and ends at the first occurrence of `stubClose` after it; if either is
missing there is no match and the body is returned unchanged. -/
def carve (body : List Nat) : List Nat :=
  match findSub stubOpen body with
  | none => body
  | some i =>
    match findSub stubClose (body.drop (i + stubOpen.length)) with
    | none => body
    | some d =>
      body.take i ++ body.drop (i + stubOpen.length + d + stubClose.length)

/-- Outcome of `gzip.GzipFile(fileobj=...).read()` on the carved bytes,
classified by the exception class it raises on failure, because the
source's handler (line 101) catches `IOError` only.  Python 2.7 (the
Jython runtime of Burp extensions) raises `IOError` for a bad magic
number, an unknown compression method byte or a CRC mismatch, but
`zlib.error` for corrupt deflate data after a well-formed gzip header;
`zlib.error` is not a subclass of `IOError`. -/
inductive InflateResult where
  | ok (bytes : List Nat)
  | ioError
  | otherError
deriving DecidableEq

/-- The message the pipeline serves: either the original response passes
through untouched (`setResponse` never called), or a rewritten header
list and body replace it (source lines 110-112). -/
inductive Outcome where
  | unchanged
  | rewritten (headers : List String) (body : List Nat)
deriving DecidableEq

/-- Side effects emitted on the Burp callbacks (source lines 119-124). -/
inductive Event where
  | setHighlight (color : String)
  | setComment (comment : String)
  | issueAlert (message : String)
deriving DecidableEq

/-- The intercepted response as the source reads it: the Burp header list
(whose first element is the status line), the raw body bytes, and the
resolved request URL used in the notifications. -/
structure MessageIn where
  headers : List String
  body : List Nat
  url : String
deriving DecidableEq

/-- Highlight color set by the source (line 119). -/
def cyanColor : String := "cyan"

/-- Comment string set by the source (line 120). -/
def commentText (url : String) : String :=
  "Redirect modified and decompressed for URL: " ++ url

/-- Alert string issued by the source (line 123). -/
def alertText (url : String) : String :=
  "Modified response for URL: " ++ url

/-- The notification events the source emits when `modified` is true
(source lines 119-124). -/
def mkEvents (url : String) : List Event :=
  [Event.setHighlight cyanColor,
   Event.setComment (commentText url),
   Event.issueAlert (alertText url)]

/-- Shallow embedding of the response path of `processHttpMessage`
(source lines 42-124).  `inflate` is the capability standing for the
external `gzip` library call on the bytes from the magic-number offset;
an `InflateResult.otherError` outcome escapes the source's
`except IOError` handler, which the `Except.error` result models as an
exception propagating to the caller.  The source's locals `new_headers`
(whose head is overwritten with the rewritten status line before the
content-type scan) and `new_body` (carved before the magic-number scan)
are inlined as `statusRewrite statusLine :: restHeaders` and
`carve msg.body`. -/
def processHttpMessage (inflate : List Nat → InflateResult) (msg : MessageIn) :
    Except Unit (Outcome × List Event) :=
  match msg.headers with
  | [] => Except.ok (Outcome.unchanged, [])
  | statusLine :: restHeaders =>
    if isCandidateStatus statusLine && decide (1000 < msg.body.length) then
      if (statusRewrite statusLine :: restHeaders).any isJsHeader then
        match findSub gzipMagic (carve msg.body) with
        | some k =>
          match inflate ((carve msg.body).drop k) with
          | InflateResult.ok dec =>
            Except.ok
              (Outcome.rewritten
                ((statusRewrite statusLine :: restHeaders).filter
                  (fun h => ! isContentEncodingHeader h)) dec,
               mkEvents msg.url)
          | InflateResult.ioError => Except.ok (Outcome.unchanged, [])
          | InflateResult.otherError => Except.error ()
        | none =>
          Except.ok
            (Outcome.rewritten (statusRewrite statusLine :: restHeaders)
              (carve msg.body),
             mkEvents msg.url)
      else
        Except.ok
          (Outcome.rewritten (statusRewrite statusLine :: restHeaders)
            (carve msg.body),
           mkEvents msg.url)
    else Except.ok (Outcome.unchanged, [])

/-- The literal "Object moved" stub fragment: the shortest body fragment
matching the carver's pattern (empty interior). -/
def stub_html : List Nat := stubOpen ++ stubClose

/-- Declarative reading of what the spec calls "containing the
Object-moved stub pattern": some occurrence of the opening literal is
followed, at or after its end, by an occurrence of the closing literal.
Occurrence positions are scanned over `0..body.length`, which covers all
positions at which the (non-empty) literals can occur. -/
def containsStub (body : List Nat) : Bool :=
  (List.range (body.length + 1)).any (fun i =>
    stubOpen.isPrefixOf (body.drop i) &&
    (List.range (body.length + 1)).any (fun j =>
      decide (i + stubOpen.length ≤ j) && stubClose.isPrefixOf (body.drop j)))

/-- Whitespace-delimited tokens of a string, the spec's notion used to
describe malformed status lines (auxiliary accumulator form). -/
def wsTokensAux : List Char → List Char → List String
  | [], acc => if acc.isEmpty then [] else [String.mk acc.reverse]
  | c :: cs, acc =>
    if c.isWhitespace then
      if acc.isEmpty then wsTokensAux cs []
      else String.mk acc.reverse :: wsTokensAux cs []
    else wsTokensAux cs (c :: acc)

/-- Whitespace-delimited tokens of a string (spec wording: "fewer than 2
whitespace-delimited tokens"); empty tokens are dropped. -/
def whitespaceTokens (s : String) : List String := wsTokensAux s.data []

/-! Soundness lemmas for the substring scan. -/

/-- When `findSub` reports an index, the pattern occurs there. -/
lemma findSub_sound {pat s : List Nat} {i : Nat} (h : findSub pat s = some i) :
    pat.isPrefixOf (s.drop i) = true := by
  induction s generalizing i with
  | nil =>
    unfold findSub at h
    by_cases hp : pat.isEmpty
    · simp [hp] at h
      subst h
      cases pat with
      | nil => simp [List.isPrefixOf]
      | cons a l => simp [List.isEmpty] at hp
    · simp [hp] at h
  | cons b bs ih =>
    unfold findSub at h
    by_cases hp : pat.isPrefixOf (b :: bs)
    · simp [hp] at h
      subst h
      simpa using hp
    · simp [hp, Option.map_eq_some'] at h
      obtain ⟨j, hj, rfl⟩ := h
      simpa using ih hj


/-- When `findSub` finds nothing, the pattern occurs nowhere. -/
lemma findSub_none_sound {pat s : List Nat} (h : findSub pat s = none) :
    ∀ i, pat.isPrefixOf (s.drop i) = false := by
  induction s with
  | nil =>
    intro i
    unfold findSub at h
    by_cases hp : pat.isEmpty
    · simp [hp] at h
    · cases pat with
      | nil => simp [List.isEmpty] at hp
      | cons a l => simp [List.isPrefixOf]
  | cons b bs ih =>
    intro i
    unfold findSub at h
    by_cases hp : pat.isPrefixOf (b :: bs)
    · simp [hp] at h
    · simp [hp] at h
      cases i with
      | zero =>
        rw [List.drop_zero, Bool.eq_false_iff]
        simpa [List.isPrefixOf_iff_prefix] using hp
      | succ j => simpa using ih h j

/-- A non-empty pattern sitting at the front of the scanned list is found
at index 0 (the scan is leftmost-first). -/
lemma findSub_eq_some_zero {pat s : List Nat} (hne : pat ≠ [])
    (hp : pat.isPrefixOf s = true) : findSub pat s = some 0 := by
  cases s with
  | nil =>
    cases pat with
    | nil => exact absurd rfl hne
    | cons a l => simp [List.isPrefixOf] at hp
  | cons b bs =>
    unfold findSub
    simp [hp]

/-- Unfolding equation of `carve` when the opening literal is absent. -/
lemma carve_eq_self_of_no_open {body : List Nat}
    (h : findSub stubOpen body = none) : carve body = body := by
  unfold carve
  simp [h]

/-- Unfolding equation of `carve` when no closing literal follows the
first opening occurrence. -/
lemma carve_eq_self_of_no_close {body : List Nat} {i : Nat}
    (h1 : findSub stubOpen body = some i)
    (h2 : findSub stubClose (body.drop (i + stubOpen.length)) = none) :
    carve body = body := by
  unfold carve
  simp [h1, h2]

/-- Unfolding equation of `carve` when the stub pattern matches. -/
lemma carve_eq_of_found {body : List Nat} {i d : Nat}
    (h1 : findSub stubOpen body = some i)
    (h2 : findSub stubClose (body.drop (i + stubOpen.length)) = some d) :
    carve body =
      body.take i ++ body.drop (i + stubOpen.length + d + stubClose.length) := by
  unfold carve
  simp [h1, h2]

/-- Carving a body that is exactly the stub followed by a payload strips
the stub and returns the payload. -/
lemma carve_stub_append (r : List Nat) : carve (stub_html ++ r) = r := by
  have hassoc : stub_html ++ r = stubOpen ++ (stubClose ++ r) := by
    simp [stub_html]
  have h1 : findSub stubOpen (stub_html ++ r) = some 0 := by
    apply findSub_eq_some_zero
    · decide
    · rw [List.isPrefixOf_iff_prefix, hassoc]
      exact List.prefix_append _ _
  have hdrop : (stub_html ++ r).drop (0 + stubOpen.length) = stubClose ++ r := by
    rw [hassoc, Nat.zero_add, List.drop_left]
  have h2 : findSub stubClose ((stub_html ++ r).drop (0 + stubOpen.length)) = some 0 := by
    rw [hdrop]
    apply findSub_eq_some_zero
    · decide
    · rw [List.isPrefixOf_iff_prefix]
      exact List.prefix_append _ _
  rw [carve_eq_of_found h1 h2]
  have hlen : 0 + stubOpen.length + 0 + stubClose.length = stub_html.length := by
    simp [stub_html]
  rw [List.take_zero, hlen, List.drop_left, List.nil_append]

/-- Branch characterization of the pipeline: every successful run either
leaves the message alone and emits nothing, or rewrites it — with the
rewritten status line at the head — and emits the notification events.
The rewritten header list is the full original tail (decompression
skipped) or the Content-Encoding filter of it (decompression applied). -/
lemma process_ok_cases (inflate : List Nat → InflateResult) (msg : MessageIn)
    (out : Outcome) (ev : List Event)
    (h : processHttpMessage inflate msg = Except.ok (out, ev)) :
    (out = Outcome.unchanged ∧ ev = []) ∨
    (∃ s tl, msg.headers = s :: tl ∧ ev = mkEvents msg.url ∧
      (out = Outcome.rewritten (statusRewrite s :: tl) (carve msg.body) ∨
       ∃ dec, out = Outcome.rewritten
         ((statusRewrite s :: tl).filter (fun x => ! isContentEncodingHeader x))
         dec)) := by
  obtain ⟨hdrs, body, url⟩ := msg
  cases hdrs with
  | nil =>
    unfold processHttpMessage at h
    simp only [Except.ok.injEq, Prod.mk.injEq] at h
    exact Or.inl ⟨h.1.symm, h.2.symm⟩
  | cons s tl =>
    unfold processHttpMessage at h
    simp only at h
    split at h
    · split at h
      · split at h
        · split at h
          · simp only [Except.ok.injEq, Prod.mk.injEq] at h
            exact Or.inr ⟨s, tl, rfl, h.2.symm, Or.inr ⟨_, h.1.symm⟩⟩
          · simp only [Except.ok.injEq, Prod.mk.injEq] at h
            exact Or.inl ⟨h.1.symm, h.2.symm⟩
          · exact absurd h (by simp)
        · simp only [Except.ok.injEq, Prod.mk.injEq] at h
          exact Or.inr ⟨s, tl, rfl, h.2.symm, Or.inl h.1.symm⟩
      · simp only [Except.ok.injEq, Prod.mk.injEq] at h
        exact Or.inr ⟨s, tl, rfl, h.2.symm, Or.inl h.1.symm⟩
    · simp only [Except.ok.injEq, Prod.mk.injEq] at h
      exact Or.inl ⟨h.1.symm, h.2.symm⟩

/-- Pipeline equation: a non-candidate status line or an undersized body
short-circuits to the unchanged outcome with no events. -/
lemma process_noncandidate_eq (inflate : List Nat → InflateResult)
    (s : String) (tl : List String) (body : List Nat) (url : String)
    (h : isCandidateStatus s = false ∨ body.length ≤ 1000) :
    processHttpMessage inflate ⟨s :: tl, body, url⟩ =
      Except.ok (Outcome.unchanged, []) := by
  unfold processHttpMessage
  simp only
  rw [if_neg]
  rcases h with hc | hl
  · simp [hc]
  · simp
    intro
    omega

/-- Pipeline equation for the two decompression-skip paths: no
JavaScript content-type signal among the rewritten headers, or no GZIP
magic number in the carved body. -/
lemma process_skip_eq (inflate : List Nat → InflateResult)
    (s : String) (tl : List String) (body : List Nat) (url : String)
    (hcand : isCandidateStatus s = true) (hlen : 1000 < body.length)
    (hskip : ((statusRewrite s :: tl).any isJsHeader = false) ∨
      findSub gzipMagic (carve body) = none) :
    processHttpMessage inflate ⟨s :: tl, body, url⟩ =
      Except.ok
        (Outcome.rewritten (statusRewrite s :: tl) (carve body),
         mkEvents url) := by
  unfold processHttpMessage
  simp only
  rw [if_pos (by simp [hcand, hlen])]
  rcases hskip with hjs | hmag
  · rw [if_neg (by simp [hjs])]
  · by_cases hjs : (statusRewrite s :: tl).any isJsHeader = true
    · rw [if_pos hjs, hmag]
    · rw [if_neg hjs]

/-- Pipeline equation for a successful decompression. -/
lemma process_decompress_eq (inflate : List Nat → InflateResult)
    (s : String) (tl : List String) (body : List Nat) (url : String)
    (k : Nat) (dec : List Nat)
    (hcand : isCandidateStatus s = true) (hlen : 1000 < body.length)
    (hjs : (statusRewrite s :: tl).any isJsHeader = true)
    (hmag : findSub gzipMagic (carve body) = some k)
    (hinf : inflate ((carve body).drop k) = InflateResult.ok dec) :
    processHttpMessage inflate ⟨s :: tl, body, url⟩ =
      Except.ok
        (Outcome.rewritten
          ((statusRewrite s :: tl).filter (fun h => ! isContentEncodingHeader h))
          dec,
         mkEvents url) := by
  unfold processHttpMessage
  simp only
  rw [if_pos (by simp [hcand, hlen]), if_pos hjs, hmag]
  simp only [hinf]

/-- Pipeline equation for a decompression failure raised as `IOError`:
the handler catches it and the whole message reverts to unchanged. -/
lemma process_ioError_eq (inflate : List Nat → InflateResult)
    (s : String) (tl : List String) (body : List Nat) (url : String)
    (k : Nat)
    (hcand : isCandidateStatus s = true) (hlen : 1000 < body.length)
    (hjs : (statusRewrite s :: tl).any isJsHeader = true)
    (hmag : findSub gzipMagic (carve body) = some k)
    (hinf : inflate ((carve body).drop k) = InflateResult.ioError) :
    processHttpMessage inflate ⟨s :: tl, body, url⟩ =
      Except.ok (Outcome.unchanged, []) := by
  unfold processHttpMessage
  simp only
  rw [if_pos (by simp [hcand, hlen]), if_pos hjs, hmag]
  simp only [hinf]

/-- Pipeline equation for a decompression failure raised as anything
other than `IOError`: the exception escapes the handler. -/
lemma process_otherError_eq (inflate : List Nat → InflateResult)
    (s : String) (tl : List String) (body : List Nat) (url : String)
    (k : Nat)
    (hcand : isCandidateStatus s = true) (hlen : 1000 < body.length)
    (hjs : (statusRewrite s :: tl).any isJsHeader = true)
    (hmag : findSub gzipMagic (carve body) = some k)
    (hinf : inflate ((carve body).drop k) = InflateResult.otherError) :
    processHttpMessage inflate ⟨s :: tl, body, url⟩ = Except.error () := by
  unfold processHttpMessage
  simp only
  rw [if_pos (by simp [hcand, hlen]), if_pos hjs, hmag]
  simp only [hinf]

/-- A non-empty pattern can only occur at a position inside the list. -/
lemma prefixAt_lt_length {pat l : List Nat} {i : Nat} (hne : pat ≠ [])
    (hp : pat.isPrefixOf (l.drop i) = true) : i < l.length := by
  by_contra hge
  push_neg at hge
  have hnil : l.drop i = [] := List.drop_eq_nil_iff.mpr (by omega)
  rw [hnil] at hp
  cases pat with
  | nil => exact hne rfl
  | cons a t => simp [List.isPrefixOf] at hp

/-- On a body free of the stub pattern, the carver is the identity. -/
lemma carve_of_not_containsStub {body : List Nat}
    (h : containsStub body = false) : carve body = body := by
  cases h1 : findSub stubOpen body with
  | none => exact carve_eq_self_of_no_open h1
  | some i =>
    cases h2 : findSub stubClose (body.drop (i + stubOpen.length)) with
    | none => exact carve_eq_self_of_no_close h1 h2
    | some d =>
      exfalso
      have hp := findSub_sound h1
      have hs0 := findSub_sound h2
      rw [List.drop_drop] at hs0
      have hi : i < body.length := prefixAt_lt_length (by decide) hp
      have hj : i + stubOpen.length + d < body.length := by
        have := prefixAt_lt_length (by decide) hs0
        omega
      have htrue : containsStub body = true := by
        unfold containsStub
        rw [List.any_eq_true]
        refine ⟨i, List.mem_range.mpr (by omega), ?_⟩
        rw [Bool.and_eq_true]
        refine ⟨hp, ?_⟩
        rw [List.any_eq_true]
        refine ⟨i + stubOpen.length + d, List.mem_range.mpr (by omega), ?_⟩
        rw [Bool.and_eq_true]
        constructor
        · simp only [decide_eq_true_eq]
          omega
        · exact_mod_cast hs0
      rw [htrue] at h
      exact absurd h (by simp)

/-- The candidate test fails when the status line has no second
space-split field. -/
lemma isCandidateStatus_false_of_none {s : String}
    (h : (pySplitSpace2 s)[1]? = none) : isCandidateStatus s = false := by
  unfold isCandidateStatus
  rcases hs : pySplitSpace2 s with _ | ⟨a, _ | ⟨b, l⟩⟩ <;> simp_all

/-- The candidate test fails when the second space-split field of the
status line does not start with the digit 3. -/
lemma isCandidateStatus_false_of_not3 {s p : String}
    (h : (pySplitSpace2 s)[1]? = some p)
    (h3 : pyStartsWith p threeStr = false) : isCandidateStatus s = false := by
  unfold isCandidateStatus
  rcases hs : pySplitSpace2 s with _ | ⟨a, _ | ⟨b, l⟩⟩ <;> simp_all

/-- A pattern whose first byte occurs nowhere in the scanned list is not
found. -/
lemma findSub_none_of_head_ne {pat s : List Nat} {b0 : Nat}
    (hpat : pat.head? = some b0) (hs : ∀ b ∈ s, b ≠ b0) :
    findSub pat s = none := by
  obtain ⟨pt, hp⟩ : ∃ pt, pat = b0 :: pt := by
    cases pat with
    | nil => simp at hpat
    | cons a t =>
      simp only [List.head?_cons, Option.some.injEq] at hpat
      exact ⟨t, by rw [hpat]⟩
  subst hp
  induction s with
  | nil => rfl
  | cons c cs ih =>
    unfold findSub
    have hc : c ≠ b0 := hs c (by simp)
    have hnp : (b0 :: pt).isPrefixOf (c :: cs) = false := by
      simp [List.isPrefixOf]
      intro hbc
      exact absurd hbc.symm hc
    rw [hnp]
    simp only [Bool.false_eq_true, if_false]
    rw [ih (fun b hb => hs b (by simp [hb]))]
    rfl

/-- Carving a body of all-zero bytes changes nothing: the stub opening
literal starts with the byte 60. -/
lemma carve_replicate_zero (n : Nat) :
    carve (List.replicate n 0) = List.replicate n 0 :=
  carve_eq_self_of_no_open
    (findSub_none_of_head_ne rfl
      (fun b hb => by rw [List.eq_of_mem_replicate hb]; decide))

/-- The GZIP magic number does not occur in a body of all-zero bytes. -/
lemma findSub_magic_replicate_zero (n : Nat) :
    findSub gzipMagic (List.replicate n 0) = none :=
  findSub_none_of_head_ne rfl
    (fun b hb => by rw [List.eq_of_mem_replicate hb]; decide)

/-- C2 counterexample: the status line " 3" has a single
whitespace-delimited token (so the claim calls it malformed and predicts
an Unchanged decision), yet the pipeline rewrites the message, because
Python's `split(' ', 2)` keeps the empty field before the leading space
and yields "3" as the second field. -/
theorem c2_counterexample :
    (whitespaceTokens (" 3")).length = 1 ∧
    processHttpMessage (fun _ => InflateResult.ioError)
        ⟨[(" 3")], List.replicate 1001 0, ("u")⟩ =
      Except.ok
        (Outcome.rewritten [(" 3")] (List.replicate 1001 0),
         [Event.setHighlight ("cyan"),
          Event.setComment ("Redirect modified and decompressed for URL: u"),
          Event.issueAlert ("Modified response for URL: u")]) := by
  constructor
  · rfl
  · rw [process_skip_eq (fun _ => InflateResult.ioError) (" 3") []
      (List.replicate 1001 0) ("u") rfl (by simp) (Or.inl rfl)]
    rw [carve_replicate_zero]
    rfl

/-- C2 (amended): every non-candidate passes through unchanged with no
notification: empty header set, or body of at most 1000 bytes, or a
status line with no second space-split field (it contains no space
character), or a second space-split field that does not start with the
digit 3 (in particular every status code outside the 3xx range). -/
theorem c2_noncandidate_unchanged (inflate : List Nat → InflateResult)
    (msg : MessageIn)
    (h : msg.headers = [] ∨ msg.body.length ≤ 1000 ∨
      (∃ s tl, msg.headers = s :: tl ∧
        ((pySplitSpace2 s)[1]? = none ∨
         ∃ p, (pySplitSpace2 s)[1]? = some p ∧
           pyStartsWith p threeStr = false))) :
    processHttpMessage inflate msg = Except.ok (Outcome.unchanged, []) := by
  obtain ⟨hdrs, body, url⟩ := msg
  rcases h with h | h | ⟨s, tl, hh, hc⟩
  · simp only at h
    subst h
    rfl
  · cases hdrs with
    | nil => rfl
    | cons s tl =>
      exact process_noncandidate_eq inflate s tl body url (Or.inr (by simpa using h))
  · simp only at hh
    subst hh
    refine process_noncandidate_eq inflate s tl body url (Or.inl ?_)
    rcases hc with hn | ⟨p, hp, h3⟩
    · exact isCandidateStatus_false_of_none hn
    · exact isCandidateStatus_false_of_not3 hp h3

/-- Witness for `c2_noncandidate_unchanged`: a 200-status response with a
large body is left untouched. -/
theorem c2_noncandidate_unchanged_witness :
    processHttpMessage (fun _ => InflateResult.ioError)
        ⟨[("HTTP/1.1 200 OK")], List.replicate 1500 0, ("u")⟩ =
      Except.ok (Outcome.unchanged, []) :=
  c2_noncandidate_unchanged (fun _ => InflateResult.ioError)
    ⟨[("HTTP/1.1 200 OK")], List.replicate 1500 0, ("u")⟩
    (Or.inr (Or.inr ⟨("HTTP/1.1 200 OK"), [], rfl, Or.inr ⟨("200"), rfl, rfl⟩⟩))

/-- C6: for every candidate (second space-split field of the status line
starting with 3, body over 1000 bytes, non-empty headers), if no header
line of the rewritten header list carries the JavaScript content-type
signal, or the GZIP magic number does not occur anywhere in the carved
body, then no decompression is attempted (the result does not depend on
`inflate` at all), the carved body is kept as-is, no header is removed,
and the decision is still Rewritten with the rewritten status line. -/
theorem c6_skip_cases_rewrite (inflate : List Nat → InflateResult)
    (s : String) (tl : List String) (body : List Nat) (url : String)
    (hcand : isCandidateStatus s = true) (hlen : 1000 < body.length)
    (hskip : ((statusRewrite s :: tl).any isJsHeader = false) ∨
      findSub gzipMagic (carve body) = none) :
    processHttpMessage inflate ⟨s :: tl, body, url⟩ =
      Except.ok
        (Outcome.rewritten (statusRewrite s :: tl) (carve body),
         mkEvents url) :=
  process_skip_eq inflate s tl body url hcand hlen hskip

/-- Witness for `c6_skip_cases_rewrite`: a large 301 response without a
JavaScript content-type is rewritten with its body kept as carved. -/
theorem c6_skip_cases_rewrite_witness :
    processHttpMessage (fun _ => InflateResult.otherError)
      ⟨[("HTTP/1.1 301 Moved"), ("Content-Type: text/html")],
        List.replicate 1001 0, ("u")⟩ =
      Except.ok
        (Outcome.rewritten
          (statusRewrite ("HTTP/1.1 301 Moved") :: [("Content-Type: text/html")])
          (carve (List.replicate 1001 0)),
         mkEvents ("u")) :=
  c6_skip_cases_rewrite (fun _ => InflateResult.otherError)
    ("HTTP/1.1 301 Moved") [("Content-Type: text/html")]
    (List.replicate 1001 0) ("u") rfl (by simp) (Or.inl rfl)

/-- C5: frame condition on headers.  In every Rewritten result the output
header list is the rewritten status line followed by the original header
tail, either in full or filtered by the case-insensitive Content-Encoding
name test — so every input header other than the status line that is not
removed as Content-Encoding appears unchanged and in the original
relative order.  On the two skip paths, where no decompression occurs, no
header is removed at all. -/
theorem c5_header_frame (inflate : List Nat → InflateResult) (msg : MessageIn)
    (s : String) (tl hs : List String) (b : List Nat) (ev : List Event)
    (hh : msg.headers = s :: tl)
    (hres : processHttpMessage inflate msg =
      Except.ok (Outcome.rewritten hs b, ev)) :
    (hs = statusRewrite s :: tl ∨
     hs = (statusRewrite s :: tl).filter (fun x => ! isContentEncodingHeader x)) ∧
    (((statusRewrite s :: tl).any isJsHeader = false ∨
       findSub gzipMagic (carve msg.body) = none) →
      hs = statusRewrite s :: tl) := by
  obtain ⟨hdrs, body, url⟩ := msg
  simp only at hh hres
  subst hh
  unfold processHttpMessage at hres
  simp only at hres
  split at hres
  · split at hres
    · rename_i hjs
      split at hres
      · rename_i k hmag
        split at hres
        · simp only [Except.ok.injEq, Prod.mk.injEq, Outcome.rewritten.injEq] at hres
          obtain ⟨⟨hhs, hb⟩, hev⟩ := hres
          refine ⟨Or.inr hhs.symm, ?_⟩
          rintro (h1 | h2)
          · rw [hjs] at h1
            exact absurd h1 (by simp)
          · rw [hmag] at h2
            exact absurd h2 (by simp)
        · exact absurd hres (by simp)
        · exact absurd hres (by simp)
      · simp only [Except.ok.injEq, Prod.mk.injEq, Outcome.rewritten.injEq] at hres
        obtain ⟨⟨hhs, hb⟩, hev⟩ := hres
        exact ⟨Or.inl hhs.symm, fun _ => hhs.symm⟩
    · simp only [Except.ok.injEq, Prod.mk.injEq, Outcome.rewritten.injEq] at hres
      obtain ⟨⟨hhs, hb⟩, hev⟩ := hres
      exact ⟨Or.inl hhs.symm, fun _ => hhs.symm⟩
  · exact absurd hres (by simp)

/-- Witness for `c5_header_frame`: a concrete skip-path run keeps the
full header tail. -/
theorem c5_header_frame_witness :
    (statusRewrite ("HTTP/1.1 302 Found") :: [("X-A: b")] =
       statusRewrite ("HTTP/1.1 302 Found") :: [("X-A: b")] ∨
     statusRewrite ("HTTP/1.1 302 Found") :: [("X-A: b")] =
       (statusRewrite ("HTTP/1.1 302 Found") :: [("X-A: b")]).filter
         (fun x => ! isContentEncodingHeader x)) ∧
    (((statusRewrite ("HTTP/1.1 302 Found") :: [("X-A: b")]).any isJsHeader = false ∨
       findSub gzipMagic (carve (List.replicate 1001 0)) = none) →
      statusRewrite ("HTTP/1.1 302 Found") :: [("X-A: b")] =
        statusRewrite ("HTTP/1.1 302 Found") :: [("X-A: b")]) :=
  c5_header_frame (fun _ => InflateResult.ioError)
    ⟨[("HTTP/1.1 302 Found"), ("X-A: b")], List.replicate 1001 0, ("u")⟩
    ("HTTP/1.1 302 Found") [("X-A: b")]
    (statusRewrite ("HTTP/1.1 302 Found") :: [("X-A: b")])
    (carve (List.replicate 1001 0)) (mkEvents ("u")) rfl
    (process_skip_eq (fun _ => InflateResult.ioError) ("HTTP/1.1 302 Found")
      [("X-A: b")] (List.replicate 1001 0) ("u") rfl (by simp) (Or.inl rfl))

/-- C9: the notification — cyan highlight, the comment
"Redirect modified and decompressed for URL: url" and the alert
"Modified response for URL: url" — is emitted if and only if the decision
is Rewritten; whenever the decision is Unchanged (including after a
caught decompression failure) no highlight, comment or alert is
emitted. -/
theorem c9_notification_iff (inflate : List Nat → InflateResult)
    (msg : MessageIn) (out : Outcome) (ev : List Event)
    (h : processHttpMessage inflate msg = Except.ok (out, ev)) :
    (out ≠ Outcome.unchanged ↔
      ev = [Event.setHighlight cyanColor,
            Event.setComment (commentText msg.url),
            Event.issueAlert (alertText msg.url)]) ∧
    (out = Outcome.unchanged → ev = []) := by
  rcases process_ok_cases inflate msg out ev h with ⟨ho, he⟩ | ⟨s, tl, hh, he, hcase⟩
  · subst ho
    subst he
    exact ⟨⟨fun hne => absurd rfl hne, fun hev => absurd hev (by simp)⟩,
           fun _ => rfl⟩
  · subst he
    have hout : out ≠ Outcome.unchanged := by
      rcases hcase with hc | ⟨dec, hc⟩ <;> (rw [hc]; simp)
    exact ⟨⟨fun _ => rfl, fun _ => hout⟩, fun hu => absurd hu hout⟩

/-- Witness for `c9_notification_iff`: a concrete rewritten message pairs
with exactly the three notification events. -/
theorem c9_notification_iff_witness :
    (Outcome.rewritten (statusRewrite ("HTTP/1.1 301 x") :: [("A: b")])
        (carve (List.replicate 1001 0)) ≠ Outcome.unchanged ↔
      mkEvents ("u") =
        [Event.setHighlight cyanColor,
         Event.setComment (commentText ("u")),
         Event.issueAlert (alertText ("u"))]) ∧
    (Outcome.rewritten (statusRewrite ("HTTP/1.1 301 x") :: [("A: b")])
        (carve (List.replicate 1001 0)) = Outcome.unchanged →
      mkEvents ("u") = []) :=
  c9_notification_iff (fun _ => InflateResult.ioError)
    ⟨[("HTTP/1.1 301 x"), ("A: b")], List.replicate 1001 0, ("u")⟩
    (Outcome.rewritten (statusRewrite ("HTTP/1.1 301 x") :: [("A: b")])
      (carve (List.replicate 1001 0)))
    (mkEvents ("u"))
    (process_skip_eq (fun _ => InflateResult.ioError) ("HTTP/1.1 301 x")
      [("A: b")] (List.replicate 1001 0) ("u") rfl (by simp) (Or.inl rfl))

/-- C3 counterexample: the 302 response whose status line is
"HTTP/1.1 302" (empty reason phrase) with a large body is Rewritten, yet
its status line is left textually unchanged — the regex
` 3\d{2} .+` finds no segment to replace, so the rewritten status code is
not 200. -/
theorem c3_counterexample :
    processHttpMessage (fun _ => InflateResult.ioError)
        ⟨[("HTTP/1.1 302")], List.replicate 1001 0, ("u")⟩ =
      Except.ok
        (Outcome.rewritten [("HTTP/1.1 302")] (List.replicate 1001 0),
         [Event.setHighlight ("cyan"),
          Event.setComment ("Redirect modified and decompressed for URL: u"),
          Event.issueAlert ("Modified response for URL: u")]) ∧
    (pySplitSpace2 ("HTTP/1.1 302"))[1]? ≠ some ("200") := by
  constructor
  · rw [process_skip_eq (fun _ => InflateResult.ioError) ("HTTP/1.1 302") []
      (List.replicate 1001 0) ("u") rfl (by simp) (Or.inl rfl)]
    rw [carve_replicate_zero]
    rfl
  · decide

/-- C3 (amended): in every Rewritten result whose original status line is
not itself named Content-Encoding, the first line of the output header
list is the original status line with the first occurrence of the
segment matching a space, the digit 3, two more digits, a space and a
non-empty rest of line replaced by " 200 OK" (`statusRewrite`); when the
status line contains no such segment it is left textually unchanged. -/
theorem c3_status_rewrite (inflate : List Nat → InflateResult)
    (msg : MessageIn) (s : String) (tl hs : List String) (b : List Nat)
    (ev : List Event)
    (hh : msg.headers = s :: tl)
    (hce : isContentEncodingHeader (statusRewrite s) = false)
    (hres : processHttpMessage inflate msg =
      Except.ok (Outcome.rewritten hs b, ev)) :
    hs.head? = some (statusRewrite s) := by
  rcases process_ok_cases inflate msg _ _ hres with ⟨ho, _⟩ | ⟨s', tl', hh', _, hcase⟩
  · exact absurd ho (by simp)
  · rw [hh] at hh'
    injection hh' with h1 h2
    subst h1
    subst h2
    rcases hcase with hc | ⟨dec, hc⟩
    · rw [Outcome.rewritten.injEq] at hc
      rw [hc.1]
      rfl
    · rw [Outcome.rewritten.injEq] at hc
      rw [hc.1, List.filter_cons, hce]
      rfl

/-- Witness for `c3_status_rewrite`: a standard 302 status line is
rewritten to "HTTP/1.1 200 OK" at the head of the output headers. -/
theorem c3_status_rewrite_witness :
    (statusRewrite ("HTTP/1.1 302 Found") :: [("X-A: b")]).head? =
      some (statusRewrite ("HTTP/1.1 302 Found")) :=
  c3_status_rewrite (fun _ => InflateResult.ioError)
    ⟨[("HTTP/1.1 302 Found"), ("X-A: b")], List.replicate 1001 0, ("u")⟩
    ("HTTP/1.1 302 Found") [("X-A: b")]
    (statusRewrite ("HTTP/1.1 302 Found") :: [("X-A: b")])
    (carve (List.replicate 1001 0)) (mkEvents ("u")) rfl rfl
    (process_skip_eq (fun _ => InflateResult.ioError) ("HTTP/1.1 302 Found")
      [("X-A: b")] (List.replicate 1001 0) ("u") rfl (by simp) (Or.inl rfl))

/-- A body in which the byte 60 (the first byte of the stub opening
literal) never occurs is left unchanged by the carver. -/
lemma carve_eq_self_of_forall_ne {body : List Nat} (h : ∀ b ∈ body, b ≠ 60) :
    carve body = body :=
  carve_eq_self_of_no_open (findSub_none_of_head_ne rfl h)

/-- A body that starts with the GZIP magic number has its first magic
occurrence at offset 0. -/
lemma findSub_magic_self (r : List Nat) :
    findSub gzipMagic (gzipMagic ++ r) = some 0 :=
  findSub_eq_some_zero (by decide)
    (by rw [List.isPrefixOf_iff_prefix]; exact List.prefix_append _ _)

/-- C8 counterexample: on the body made of two back-to-back stub
fragments the carver is not idempotent — the first application removes
the first stub, the second application removes the second one. -/
theorem c8_counterexample :
    carve (carve (stub_html ++ stub_html)) ≠ carve (stub_html ++ stub_html) := by
  rw [carve_stub_append stub_html]
  have h1 : carve stub_html = [] := by
    have h2 := carve_stub_append []
    rwa [List.append_nil] at h2
  rw [h1]
  intro hcontra
  exact absurd hcontra (by decide)

/-- C8 (amended): the carver is the identity on every body free of the
stub pattern, and hence applying it twice to such a body yields the same
result as applying it once. -/
theorem c8_stub_free_idempotent (body : List Nat)
    (h : containsStub body = false) :
    carve body = body ∧ carve (carve body) = carve body := by
  have h1 := carve_of_not_containsStub h
  refine ⟨h1, ?_⟩
  rw [h1]
  exact h1

/-- Witness for `c8_stub_free_idempotent` at the stub-free body
[1, 2, 3]. -/
theorem c8_stub_free_idempotent_witness :
    carve [1, 2, 3] = [1, 2, 3] ∧ carve (carve [1, 2, 3]) = carve [1, 2, 3] :=
  c8_stub_free_idempotent [1, 2, 3] (by decide)

/-- Bodies consisting of the GZIP magic number followed by zero bytes
contain no byte 60, so the carver leaves them unchanged. -/
lemma carve_magic_zeros (n : Nat) :
    carve (gzipMagic ++ List.replicate n 0) = gzipMagic ++ List.replicate n 0 :=
  carve_eq_self_of_forall_ne (fun b hb => by
    rcases List.mem_append.mp hb with h | h
    · simp only [gzipMagic, List.mem_cons, List.not_mem_nil, or_false] at h
      rcases h with rfl | rfl <;> decide
    · rw [List.eq_of_mem_replicate h]
      decide)

/-- C10 counterexample: a response whose status token is "30" (starts
with the character 3, but the status line matches no ` 3dd <rest>`
segment), with a JavaScript content-type, a large body starting with the
GZIP magic number, and a decompression failing with `IOError`, is not
Rewritten — the failure reverts the whole message to Unchanged. -/
theorem c10_counterexample :
    statusRewrite ("HTTP/1.1 30 Found") = ("HTTP/1.1 30 Found") ∧
    processHttpMessage (fun _ => InflateResult.ioError)
        ⟨[("HTTP/1.1 30 Found"), ("Content-Type: application/x-javascript")],
          gzipMagic ++ List.replicate 1000 0, ("u")⟩ =
      Except.ok (Outcome.unchanged, []) := by
  constructor
  · rfl
  · refine process_ioError_eq (fun _ => InflateResult.ioError)
      ("HTTP/1.1 30 Found") [("Content-Type: application/x-javascript")]
      (gzipMagic ++ List.replicate 1000 0) ("u") 0 rfl ?_ rfl ?_ rfl
    · rw [List.length_append, List.length_replicate]
      have h2 : gzipMagic.length = 2 := by decide
      omega
    · rw [carve_magic_zeros]
      exact findSub_magic_self _

/-- C10 (amended): for every response whose status line's second
space-split field starts with the character 3 but which the status
rewrite leaves textually unchanged (no ` 3<digit><digit> <rest>` segment,
e.g. status token "30", a non-numeric token like "3abc", or an empty
reason phrase), with non-empty headers, a body over 1000 bytes, a status
line not itself named Content-Encoding, and a decompression stage that is
skipped or succeeds, the pipeline returns Rewritten with the original
status line, textually unchanged, as the first output header. -/
theorem c10_unmatched_status_rewritten (inflate : List Nat → InflateResult)
    (s : String) (tl : List String) (body : List Nat) (url : String) (p : String)
    (hp : (pySplitSpace2 s)[1]? = some p)
    (h3 : pyStartsWith p threeStr = true)
    (hnomatch : statusRewrite s = s)
    (hce : isContentEncodingHeader s = false)
    (hlen : 1000 < body.length)
    (hok : ((statusRewrite s :: tl).any isJsHeader = false) ∨
      findSub gzipMagic (carve body) = none ∨
      (∃ k dec, findSub gzipMagic (carve body) = some k ∧
        inflate ((carve body).drop k) = InflateResult.ok dec)) :
    ∃ hs b, processHttpMessage inflate ⟨s :: tl, body, url⟩ =
        Except.ok (Outcome.rewritten hs b, mkEvents url) ∧
      hs.head? = some s := by
  have hcand : isCandidateStatus s = true := by
    unfold isCandidateStatus
    rcases hsp : pySplitSpace2 s with _ | ⟨a, _ | ⟨bb, l⟩⟩ <;> simp_all
  have hhead : (statusRewrite s :: tl).head? = some s := by
    rw [List.head?_cons, hnomatch]
  rcases hok with hjs | hmag | ⟨k, dec, hmag, hinf⟩
  · exact ⟨_, _, process_skip_eq inflate s tl body url hcand hlen (Or.inl hjs), hhead⟩
  · exact ⟨_, _, process_skip_eq inflate s tl body url hcand hlen (Or.inr hmag), hhead⟩
  · by_cases hjs : (statusRewrite s :: tl).any isJsHeader = true
    · refine ⟨_, _, process_decompress_eq inflate s tl body url k dec
        hcand hlen hjs hmag hinf, ?_⟩
      rw [List.filter_cons, hnomatch, hce]
      rfl
    · refine ⟨_, _, process_skip_eq inflate s tl body url hcand hlen
        (Or.inl (by simpa using hjs)), hhead⟩

/-- Witness for `c10_unmatched_status_rewritten`: the status token "30"
response without a JavaScript content-type is rewritten with its status
line kept. -/
theorem c10_unmatched_status_rewritten_witness :
    ∃ hs b, processHttpMessage (fun _ => InflateResult.ioError)
        ⟨[("HTTP/1.1 30 Found"), ("X-A: b")], List.replicate 1001 0, ("u")⟩ =
        Except.ok (Outcome.rewritten hs b, mkEvents ("u")) ∧
      hs.head? = some ("HTTP/1.1 30 Found") :=
  c10_unmatched_status_rewritten (fun _ => InflateResult.ioError)
    ("HTTP/1.1 30 Found") [("X-A: b")] (List.replicate 1001 0) ("u") ("30")
    rfl rfl rfl rfl (by simp) (Or.inl rfl)

/-- C4: round trip.  For every candidate whose body is the stub fragment
followed by `gzip_compress payload` — where `gzip_compress` produces a
stream starting with the GZIP magic number and `inflate` inverts it on
that stream — and whose header tail contains a Content-Type header with
the JavaScript signal, the decision is Rewritten, the body is exactly
`payload`, and no header of the output is named Content-Encoding
(case-insensitive). -/
theorem c4_roundtrip (inflate : List Nat → InflateResult)
    (gzip_compress : List Nat → List Nat) (payload : List Nat)
    (s : String) (tl : List String) (url : String)
    (hcand : isCandidateStatus s = true)
    (hjs : ∃ h ∈ tl, isJsHeader h = true)
    (hmagic : gzipMagic.isPrefixOf (gzip_compress payload) = true)
    (hround : inflate (gzip_compress payload) = InflateResult.ok payload)
    (hlen : 1000 < (stub_html ++ gzip_compress payload).length) :
    processHttpMessage inflate
        ⟨s :: tl, stub_html ++ gzip_compress payload, url⟩ =
      Except.ok
        (Outcome.rewritten
          ((statusRewrite s :: tl).filter (fun x => ! isContentEncodingHeader x))
          payload,
         mkEvents url) ∧
    ∀ h ∈ (statusRewrite s :: tl).filter (fun x => ! isContentEncodingHeader x),
      isContentEncodingHeader h = false := by
  have hcarve : carve (stub_html ++ gzip_compress payload) = gzip_compress payload :=
    carve_stub_append _
  have hanyjs : (statusRewrite s :: tl).any isJsHeader = true := by
    rw [List.any_eq_true]
    obtain ⟨h, hmem, hjsh⟩ := hjs
    exact ⟨h, List.mem_cons_of_mem _ hmem, hjsh⟩
  have hmag : findSub gzipMagic (carve (stub_html ++ gzip_compress payload)) = some 0 := by
    rw [hcarve]
    exact findSub_eq_some_zero (by decide) hmagic
  have hinf : inflate ((carve (stub_html ++ gzip_compress payload)).drop 0) =
      InflateResult.ok payload := by
    rw [hcarve, List.drop_zero]
    exact hround
  constructor
  · exact process_decompress_eq inflate s tl _ url 0 payload hcand hlen hanyjs hmag hinf
  · intro h hmem
    have hmf := List.mem_filter.mp hmem
    simpa using hmf.2

/-- Witness for `c4_roundtrip`: a 302 response carrying the stub plus a
magic-prefixed stream, with a JavaScript Content-Type header and a
Content-Encoding header, is rewritten to exactly the payload with the
Content-Encoding header removed. -/
theorem c4_roundtrip_witness :
    processHttpMessage
        (fun bs => if gzipMagic.isPrefixOf bs then InflateResult.ok (bs.drop 2)
                   else InflateResult.ioError)
        ⟨[("HTTP/1.1 302 Found"), ("Content-Type: application/x-javascript"),
          ("Content-Encoding: gzip")],
          stub_html ++ (gzipMagic ++ List.replicate 950 7), ("u")⟩ =
      Except.ok
        (Outcome.rewritten
          ((statusRewrite ("HTTP/1.1 302 Found") ::
              [("Content-Type: application/x-javascript"),
               ("Content-Encoding: gzip")]).filter
            (fun x => ! isContentEncodingHeader x))
          (List.replicate 950 7),
         mkEvents ("u")) ∧
    ∀ h ∈ (statusRewrite ("HTTP/1.1 302 Found") ::
        [("Content-Type: application/x-javascript"),
         ("Content-Encoding: gzip")]).filter
      (fun x => ! isContentEncodingHeader x),
      isContentEncodingHeader h = false :=
  c4_roundtrip
    (fun bs => if gzipMagic.isPrefixOf bs then InflateResult.ok (bs.drop 2)
               else InflateResult.ioError)
    (fun p => gzipMagic ++ p) (List.replicate 950 7)
    ("HTTP/1.1 302 Found")
    [("Content-Type: application/x-javascript"), ("Content-Encoding: gzip")]
    ("u") rfl
    ⟨("Content-Type: application/x-javascript"), by simp, rfl⟩
    rfl rfl
    (by
      rw [List.length_append, List.length_append, List.length_replicate]
      have h1 : stub_html.length = 66 := by decide
      have h2 : gzipMagic.length = 2 := by decide
      omega)

/-- Bodies consisting of the GZIP magic number, a plausible deflate
header and repeated one-bytes contain no byte 60, so the carver leaves
them unchanged. -/
lemma carve_magic_deflate_ones (n : Nat) :
    carve (gzipMagic ++ (8 :: 0 :: List.replicate n 1)) =
      gzipMagic ++ (8 :: 0 :: List.replicate n 1) :=
  carve_eq_self_of_forall_ne (fun b hb => by
    rcases List.mem_append.mp hb with h | h
    · simp only [gzipMagic, List.mem_cons, List.not_mem_nil, or_false] at h
      rcases h with rfl | rfl <;> decide
    · simp only [List.mem_cons] at h
      rcases h with rfl | rfl | h
      · decide
      · decide
      · rw [List.eq_of_mem_replicate h]
        decide)

/-- C1 at the failing input: a candidate 302 response with the
JavaScript content-type signal and the GZIP magic number at offset 0 of
its (unchanged) carved body, carrying a well-formed gzip header (method
byte 8, flag byte 0) followed by corrupt deflate data (repeated 0x01
bytes: the first stored block has inconsistent LEN/NLEN fields).  On
those bytes Python 2.7's gzip raises `zlib.error`, which is not an
`IOError`, so the inflation failure makes the embedded pipeline end in
an uncaught exception instead of the Unchanged decision with the
original message that the claim requires. -/
theorem c1_failing_eval :
    processHttpMessage (fun _ => InflateResult.otherError)
        ⟨[("HTTP/1.1 302 Found"), ("Content-Type: application/x-javascript")],
          gzipMagic ++ (8 :: 0 :: List.replicate 1200 1), ("u")⟩ =
      Except.error () := by
  refine process_otherError_eq (fun _ => InflateResult.otherError)
    ("HTTP/1.1 302 Found") [("Content-Type: application/x-javascript")]
    (gzipMagic ++ (8 :: 0 :: List.replicate 1200 1)) ("u") 0 rfl ?_ rfl ?_ rfl
  · rw [List.length_append]
    simp only [List.length_cons, List.length_replicate]
    have h2 : gzipMagic.length = 2 := by decide
    omega
  · rw [carve_magic_deflate_ones]
    exact findSub_magic_self _

/-- C7 at the failing input: a candidate 301 response with the
JavaScript content-type signal whose body starts with a GZIP header
followed by corrupt compressed data.  Python's gzip module raises
`zlib.error` on such data, which the source's `except IOError` clause
does not catch, so the decompression failure propagates to the caller as
an exception — contradicting the claim that every inflation failure is
contained. -/
theorem c7_failing_eval :
    processHttpMessage (fun _ => InflateResult.otherError)
        ⟨[("HTTP/1.1 301 Moved Permanently"),
          ("Content-Type: application/x-javascript; charset=utf-8")],
          gzipMagic ++ (8 :: 0 :: List.replicate 1000 1), ("u")⟩ =
      Except.error () := by
  refine process_otherError_eq (fun _ => InflateResult.otherError)
    ("HTTP/1.1 301 Moved Permanently")
    [("Content-Type: application/x-javascript; charset=utf-8")]
    (gzipMagic ++ (8 :: 0 :: List.replicate 1000 1)) ("u") 0 rfl ?_ rfl ?_ rfl
  · rw [List.length_append]
    simp only [List.length_cons, List.length_replicate]
    have h2 : gzipMagic.length = 2 := by decide
    omega
  · rw [carve_magic_deflate_ones]
    exact findSub_magic_self _
